import Mathlib

/-!
# Verification of the multi-turn conversation evaluation harness

A shallow embedding of `src/assets/evaluate-skill.py` (the multi-turn
conversation evaluation harness): the Chat Gateway (`chat`), the Termination
Oracle (`needs_user_input`), the User Simulator (`simulate_user`), the
Conversation Driver (`run_scenario`), the Transcript Grader
(`grade_transcript`), and the Scenario Runner (`__main__` aggregation loop).

Remote language-model calls are modelled as total reply oracles
(`LLM := model → messages → system → max_tokens → reply`); the Python standard
library pieces the harness leans on (`json.loads`, `str.split`, `str.strip`,
`int(...)`, the `in` substring operator, `dict.get`) are embedded as
executable Lean functions below.  Exceptions escaping a scenario are modelled
at the Scenario Runner boundary as `Except` values.
-/

namespace SkillEval

/-- A chat message, exactly the `{"role": ..., "content": ...}` dict shape
used throughout the source. -/
structure Message where
  role : String
  content : String
deriving DecidableEq, Repr

/-- A remote chat oracle: `model, messages, system, max_tokens ↦ reply text`.
This abstracts the network behaviour of `chat(...)` for the components that
consume its reply. -/
def LLM : Type := String → List Message → Option String → Nat → String

/-! ## Python string primitives used by the harness -/

/-- Prefix test: does char list `n` occur as a prefix of `h`?
(Embeds Python `str.startswith`.) -/
def chPrefix : List Char → List Char → Bool
  | [], _ => true
  | _ :: _, [] => false
  | a :: as, b :: bs => a == b && chPrefix as bs

/-- Containment test: does char list `n` occur as a contiguous sublist of
`h`?  (Embeds the Python `in` operator on strings.) -/
def chContains (n : List Char) : List Char → Bool
  | [] => n.isEmpty
  | c :: t => chPrefix n (c :: t) || chContains n t

/-- Python `needle in hay` on strings. -/
def pyIn (needle hay : String) : Bool :=
  chContains needle.data hay.data

/-- The whitespace characters stripped by Python `str.strip()` (the ASCII
ones; the harness only ever strips ASCII judge output). -/
def isPySpace (c : Char) : Bool :=
  c == ' ' || c == '\t' || c == '\n' || c == '\r' || c == Char.ofNat 11 || c == Char.ofNat 12

/-- Python `str.strip()`. -/
def pyStrip (s : String) : String :=
  String.mk (((s.data.dropWhile isPySpace).reverse.dropWhile isPySpace).reverse)

/-- Split a char list at every occurrence of `sep`, keeping empty pieces
(the semantics of Python `str.split(sep)` for a one-character separator). -/
def splitChar (sep : Char) : List Char → List (List Char)
  | [] => [[]]
  | c :: t =>
    match splitChar sep t with
    | [] => [[]]
    | h :: r => if c == sep then [] :: h :: r else (c :: h) :: r

/-- Python `s.split(sep)` for a one-character separator `sep`. -/
def pySplit (s : String) (sep : Char) : List String :=
  (splitChar sep s.data).map String.mk

/-- Digit-sequence validity for Python `int(...)` after the first digit:
single underscores are allowed but only between digits. -/
def intDigitsOk : List Char → Bool
  | [] => true
  | '_' :: d :: rest => d.isDigit && intDigitsOk rest
  | '_' :: [] => false
  | d :: rest => d.isDigit && intDigitsOk rest

/-- Numeric value of a digit list. -/
def digitsValN (ds : List Char) : Nat :=
  ds.foldl (fun a c => a * 10 + (c.toNat - 48)) 0

/-- Python `int(s)` for a string already stripped of surrounding whitespace:
optional sign, then decimal digits with optional single internal
underscores.  Returns `none` where Python raises `ValueError`. -/
def pyInt (s : String) : Option Int :=
  let p : Bool × List Char :=
    match s.data with
    | '-' :: t => (true, t)
    | '+' :: t => (false, t)
    | t => (false, t)
  match p.2 with
  | [] => none
  | d :: rest =>
    if d.isDigit && intDigitsOk rest then
      let v : Int := Int.ofNat (digitsValN ((d :: rest).filter (fun c => !(c == '_'))))
      some (if p.1 then -v else v)
    else none

/-! ## Model configuration (evaluate-skill.py lines 39-63) -/

def PROVIDER : String := "anthropic"
def SKILL_MODEL : String := "claude-sonnet-4-5"
def SIMULATOR_MODEL : String := "claude-haiku-4-5"
def INPUT_CHECK_MODEL : String := "claude-haiku-4-5"
def JUDGE_MODEL : String := "claude-sonnet-4-5"
def MAX_TURNS : Nat := 10

/-! ## Helpers (evaluate-skill.py lines 367-371) -/

/-- Embeds `format_transcript`: role-labelled text, `"\n\n".join(f"{role.upper()}: {content}")`. -/
def format_transcript (transcript : List Message) : String :=
  String.intercalate "\n\n"
    (transcript.map (fun m => String.map Char.toUpper m.role ++ ": " ++ m.content))

/-! ## Termination Oracle (evaluate-skill.py lines 251-273) -/

/-- The prompt the Termination Oracle sends to `INPUT_CHECK_MODEL`
(the f-string at lines 260-269). -/
def inputCheckPrompt (transcript_text : String) : String :=
  "Analyze this conversation between a user and an AI assistant.\n\n" ++
  "Determine if the assistant is:\n" ++
  "1. WAITING for user input (asked a question, requested confirmation, needs information)\n" ++
  "2. DONE (task complete, or assistant is working autonomously without needing input)\n\n" ++
  "Conversation:\n" ++ transcript_text ++
  "\n\nReply with exactly one word: WAITING or DONE"

/-- Embeds `needs_user_input`: ask the input-check model, then test
`"WAITING" in response`. -/
def needs_user_input (llm : LLM) (transcript : List Message) : Bool :=
  let transcript_text := format_transcript transcript
  let response := llm INPUT_CHECK_MODEL [⟨"user", inputCheckPrompt transcript_text⟩] none 16
  pyIn "WAITING" response

/-! ## User Simulator (evaluate-skill.py lines 280-294) -/

/-- The prompt the User Simulator sends to `SIMULATOR_MODEL`. -/
def simulatorPrompt (instructions transcript_text : String) : String :=
  "You are simulating a user interacting with an AI assistant.\n\n" ++
  "Instructions for how to behave:\n" ++ instructions ++
  "\n\nThe conversation so far:\n" ++ transcript_text ++
  "\n\nGenerate the next user response. Be concise and natural. Output ONLY the response, nothing else."

/-- Embeds `simulate_user`: returns the simulator model's raw reply. -/
def simulate_user (llm : LLM) (transcript : List Message) (instructions : String) : String :=
  llm SIMULATOR_MODEL [⟨"user", simulatorPrompt instructions (format_transcript transcript)⟩] none 512

/-! ## A model of Python `json.loads` (used by `grade_transcript`)

Numbers with a fraction or exponent (Python floats) are kept symbolic as
`Json.fnum` of their lexeme; every claim below only ever inspects integer
values, so no floating-point arithmetic is modelled. -/

/-- A parsed Python JSON value.  Objects keep their key/value pairs in parse
order (later duplicates win on lookup, as in a Python dict build). -/
inductive Json where
  | null : Json
  | bool (b : Bool) : Json
  | num (n : Int) : Json
  | fnum (lexeme : String) : Json
  | str (s : String) : Json
  | arr (elems : List Json) : Json
  | obj (members : List (String × Json)) : Json

/-- The opening-brace character, written by code to keep brace characters out
of string literals. -/
def chLBrace : Char := Char.ofNat 123

/-- The closing-brace character. -/
def chRBrace : Char := Char.ofNat 125

/-- JSON inter-token whitespace (exactly the characters Python's json module
skips). -/
def isJsonWs (c : Char) : Bool :=
  c == ' ' || c == '\t' || c == '\n' || c == '\r'

/-- Drop leading JSON whitespace. -/
def skipWs (cs : List Char) : List Char :=
  cs.dropWhile isJsonWs

/-- Match a literal keyword tail and produce a fixed value. -/
def matchLit (lit : List Char) (cs : List Char) (v : Json) : Option (Json × List Char) :=
  if chPrefix lit cs then some (v, cs.drop lit.length) else none

/-- Hexadecimal digit value. -/
def hexVal (c : Char) : Option Nat :=
  if '0' ≤ c && c ≤ '9' then some (c.toNat - 48)
  else if 'a' ≤ c && c ≤ 'f' then some (c.toNat - 87)
  else if 'A' ≤ c && c ≤ 'F' then some (c.toNat - 55)
  else none

/-- Single-character JSON string escapes. -/
def escChar (e : Char) : Option Char :=
  if e == '"' then some '"'
  else if e == '\\' then some '\\'
  else if e == '/' then some '/'
  else if e == 'b' then some (Char.ofNat 8)
  else if e == 'f' then some (Char.ofNat 12)
  else if e == 'n' then some '\n'
  else if e == 'r' then some '\r'
  else if e == 't' then some '\t'
  else none

/-- Optional fraction part of a JSON number: `('.' digits+)?`.  Returns the
consumed lexeme and the remaining input; fails on a dot with no digits. -/
def fracPart (cs : List Char) : Option (List Char × List Char) :=
  match cs with
  | '.' :: t =>
    let ds := t.takeWhile Char.isDigit
    if ds.isEmpty then none else some ('.' :: ds, t.dropWhile Char.isDigit)
  | _ => some ([], cs)

/-- Optional exponent part of a JSON number: `([eE] [+-]? digits+)?`. -/
def expPart (cs : List Char) : Option (List Char × List Char) :=
  match cs with
  | [] => some ([], [])
  | e :: t =>
    if e == 'e' || e == 'E' then
      let q : List Char × List Char :=
        match t with
        | '+' :: t2 => (['+'], t2)
        | '-' :: t2 => (['-'], t2)
        | t2 => ([], t2)
      let digits := q.2.takeWhile Char.isDigit
      if digits.isEmpty then none
      else some (e :: (q.1 ++ digits), q.2.dropWhile Char.isDigit)
    else some ([], e :: t)

/-- Parse a JSON number starting at `cs` (first char is `-` or a digit).
Also accepts Python's `-Infinity` extension.  An integer literal becomes
`Json.num`; any fraction or exponent makes it a symbolic `Json.fnum`. -/
def parseNum (cs : List Char) : Option (Json × List Char) :=
  let sp : List Char × List Char :=
    match cs with
    | '-' :: t => (['-'], t)
    | t => ([], t)
  if !sp.1.isEmpty && chPrefix ("Infinity".data) sp.2 then
    some (Json.fnum "-Infinity", sp.2.drop 8)
  else
    match sp.2 with
    | [] => none
    | d :: t =>
      if !d.isDigit then none
      else
        let intDs : List Char := if d == '0' then [d] else d :: t.takeWhile Char.isDigit
        let rest0 : List Char := if d == '0' then t else t.dropWhile Char.isDigit
        match fracPart rest0 with
        | none => none
        | some (fracDs, rest1) =>
          match expPart rest1 with
          | none => none
          | some (expDs, rest2) =>
            if fracDs.isEmpty && expDs.isEmpty then
              some (Json.num (if sp.1.isEmpty then Int.ofNat (digitsValN intDs)
                              else -Int.ofNat (digitsValN intDs)), rest0)
            else
              some (Json.fnum (String.mk (sp.1 ++ intDs ++ fracDs ++ expDs)), rest2)

mutual

/-- Parse one JSON value (fuel-bounded recursive descent). -/
def parseVal : Nat → List Char → Option (Json × List Char)
  | 0, _ => none
  | fuel + 1, cs =>
    match skipWs cs with
    | [] => none
    | c :: rest =>
      if c == 'n' then matchLit ("ull".data) rest Json.null
      else if c == 't' then matchLit ("rue".data) rest (Json.bool true)
      else if c == 'f' then matchLit ("alse".data) rest (Json.bool false)
      else if c == 'N' then matchLit ("aN".data) rest (Json.fnum "NaN")
      else if c == 'I' then matchLit ("nfinity".data) rest (Json.fnum "Infinity")
      else if c == '"' then
        match parseJStr fuel rest [] with
        | some (s, rest2) => some (Json.str s, rest2)
        | none => none
      else if c == '[' then
        match skipWs rest with
        | ']' :: rest2 => some (Json.arr [], rest2)
        | other => parseArrItems fuel other []
      else if c == chLBrace then
        match skipWs rest with
        | d :: rest2 =>
          if d == chRBrace then some (Json.obj [], rest2)
          else parseObjItems fuel (d :: rest2) []
        | [] => none
      else if c == '-' || c.isDigit then parseNum (c :: rest)
      else none

/-- Parse the body of a JSON string after the opening quote. -/
def parseJStr : Nat → List Char → List Char → Option (String × List Char)
  | 0, _, _ => none
  | _, [], _ => none
  | fuel + 1, c :: rest, acc =>
    if c == '"' then some (String.mk acc.reverse, rest)
    else if c == '\\' then
      match rest with
      | [] => none
      | e :: rest2 =>
        if e == 'u' then
          match rest2 with
          | h1 :: h2 :: h3 :: h4 :: rest3 =>
            match hexVal h1, hexVal h2, hexVal h3, hexVal h4 with
            | some v1, some v2, some v3, some v4 =>
              parseJStr fuel rest3 (Char.ofNat (((v1 * 16 + v2) * 16 + v3) * 16 + v4) :: acc)
            | _, _, _, _ => none
          | _ => none
        else
          match escChar e with
          | some ch => parseJStr fuel rest2 (ch :: acc)
          | none => none
    else if c.toNat < 32 then none
    else parseJStr fuel rest (c :: acc)

/-- Parse array items after at least one element is known to follow. -/
def parseArrItems : Nat → List Char → List Json → Option (Json × List Char)
  | 0, _, _ => none
  | fuel + 1, cs, acc =>
    match parseVal fuel cs with
    | none => none
    | some (v, rest) =>
      match skipWs rest with
      | ']' :: rest2 => some (Json.arr (v :: acc).reverse, rest2)
      | ',' :: rest2 => parseArrItems fuel rest2 (v :: acc)
      | _ => none

/-- Parse object members after at least one member is known to follow. -/
def parseObjItems : Nat → List Char → List (String × Json) → Option (Json × List Char)
  | 0, _, _ => none
  | fuel + 1, cs, acc =>
    match skipWs cs with
    | [] => none
    | q :: rest =>
      if q == '"' then
        match parseJStr fuel rest [] with
        | none => none
        | some (key, rest2) =>
          match skipWs rest2 with
          | ':' :: rest3 =>
            match parseVal fuel rest3 with
            | none => none
            | some (v, rest4) =>
              match skipWs rest4 with
              | d :: rest5 =>
                if d == chRBrace then some (Json.obj ((key, v) :: acc).reverse, rest5)
                else if d == ',' then parseObjItems fuel rest5 ((key, v) :: acc)
                else none
              | [] => none
          | _ => none
      else none

end

/-- Embeds `json.loads(text)`: parse one value and require only whitespace
after it; `none` where Python raises `JSONDecodeError`. -/
def jsonParse (s : String) : Option Json :=
  match parseVal (4 * s.data.length + 16) s.data with
  | some (j, rest) => if (skipWs rest).isEmpty then some j else none
  | none => none

/-- Embeds Python `dict.get key dflt` on the member list of a parsed JSON
object (later duplicate keys overwrite earlier ones). -/
def pyDictGet (kvs : List (String × Json)) (key : String) (dflt : Json) : Json :=
  match kvs.foldl (fun acc p => if p.1 == key then some p.2 else acc)
      (none : Option Json) with
  | some v => v
  | none => dflt

/-! ## Transcript Grader (evaluate-skill.py lines 303-360) -/

/-- Embeds `GRADER_PROMPT.format(behaviors_list=..., transcript_text=...)`
(lines 303-326; the doubled braces of the template render as single
braces, written `\x7b`/`\x7d` here). -/
def graderPromptText (behaviors_list transcript_text : String) : String :=
  "Evaluate this conversation transcript against expected behaviors.\n\n" ++
  "EXPECTED BEHAVIORS:\n" ++ behaviors_list ++
  "\n\nTRANSCRIPT:\n" ++ transcript_text ++
  "\n\nFor each expected behavior, determine if it occurred in the transcript.\n" ++
  "Then provide an overall score from 1-5:\n" ++
  "- 5: All behaviors occurred correctly\n" ++
  "- 4: Most behaviors occurred, minor issues\n" ++
  "- 3: Some behaviors occurred, some missing\n" ++
  "- 2: Few behaviors occurred, major issues\n" ++
  "- 1: Behaviors did not occur or were incorrect\n\n" ++
  "Output your analysis as JSON:\n\x7b\n  \"reasoning\": \"<brief explanation>\",\n" ++
  "  \"behavior_results\": [\n    \x7b\"behavior\": \"<behavior text>\", \"present\": true/false, \"evidence\": \"<quote or explanation>\"\x7d\n" ++
  "  ],\n  \"overall\": <1-5>\n\x7d"

/-- Score extraction from one line of the judge reply: strip it, require the
`SCORE:` prefix, then `int(line.split(":")[1].strip())`; `none` both when the
prefix is missing and when the `int(...)` conversion raises
(`except (ValueError, IndexError): pass`). -/
def scoreFromLine (line : String) : Option Int :=
  let l := pyStrip line
  if chPrefix ("SCORE:".data) l.data then
    match (pySplit l ':').get? 1 with
    | some piece => pyInt (pyStrip piece)
    | none => none
  else none

/-- The `for line in reversed(text.split("\n"))` scan of lines 351-357,
applied to an already-reversed line list: first line that yields a score
wins; a `SCORE:` line whose integer fails to parse is skipped. -/
def scanScore : List String → Option Int
  | [] => none
  | line :: rest =>
    match scoreFromLine line with
    | some n => some n
    | none => scanScore rest

/-- Parse a judge reply into a score, embedding lines 344-360.
`Except.error` marks the one uncaught exception of that code path: a reply
that parses as JSON but is not an object makes `result.get("overall", 3)`
raise `AttributeError` (only `json.JSONDecodeError`, `ValueError` and
`IndexError` are caught). -/
def parseJudgeReply (text : String) : Except String Json :=
  match jsonParse text with
  | some (Json.obj kvs) => Except.ok (pyDictGet kvs "overall" (Json.num 3))
  | some _ => Except.error "AttributeError: result has no attribute get"
  | none =>
    match scanScore ((pySplit text '\n').reverse) with
    | some n => Except.ok (Json.num n)
    | none => Except.ok (Json.num 3)

/-- Embeds `grade_transcript(transcript, expected_behaviors)`: build the
rubric prompt, ask the judge model, parse its reply. -/
def grade_transcript (llm : LLM) (transcript : List Message)
    (expected_behaviors : List String) : Except String Json :=
  let behaviors_list := String.intercalate "\n" (expected_behaviors.map (fun b => "- " ++ b))
  let transcript_text := format_transcript transcript
  let text := llm JUDGE_MODEL [⟨"user", graderPromptText behaviors_list transcript_text⟩] none 1024
  parseJudgeReply text

/-! ## Scenario data (evaluate-skill.py lines 155-203) -/

/-- A scenario record, with `context_files` as an insertion-ordered
association list (the iteration order of the Python dict). -/
structure Scenario where
  name : String
  initial_message : String
  context_files : List (String × String)
  user_simulator_instructions : String
  expected_behaviors : List String
deriving DecidableEq, Repr

/-! ## Conversation Driver (evaluate-skill.py lines 210-248) -/

/-- Embeds `build_system_prompt` (lines 134-147); the optional reference
files stand for the sorted `*.md` glob of the references directory. -/
def build_system_prompt (skill_content : String)
    (refs : Option (List (String × String))) : String :=
  match refs with
  | none => skill_content
  | some refFiles =>
    if refFiles.isEmpty then skill_content
    else
      skill_content ++ "\n\n# References" ++
        String.join (refFiles.map (fun r => "\n\n---\n## Reference: " ++ r.1 ++ "\n\n" ++ r.2))

/-- The `files_context` join of lines 217-220. -/
def filesBlock (ctx : List (String × String)) : String :=
  String.intercalate "\n\n"
    (ctx.map (fun p => "File: `" ++ p.1 ++ "`\n```\n" ++ p.2 ++ "\n```"))

/-- The `initial_content` of lines 215-221: context files, when present,
are concatenated before the initial message. -/
def initialContent (sc : Scenario) : String :=
  if sc.context_files.isEmpty then sc.initial_message
  else filesBlock sc.context_files ++ "\n\n" ++ sc.initial_message

/-- The `while turns < max_turns and needs_user_input(transcript)` loop of
lines 235-246, with `fuel = max_turns - turns` (so `fuel = 0` exactly when
`turns < max_turns` fails).  Returns `(messages, transcript, turns)`. -/
def convLoop (llm : LLM) (system_prompt instructions : String) :
    Nat → List Message → List Message → Nat → List Message × List Message × Nat
  | 0, messages, transcript, turns => (messages, transcript, turns)
  | fuel + 1, messages, transcript, turns =>
    if needs_user_input llm transcript then
      let user_reply := simulate_user llm transcript instructions
      let messages1 := messages ++ [⟨"user", user_reply⟩]
      let assistant_msg := llm SKILL_MODEL messages1 (some system_prompt) 4096
      let messages2 := messages1 ++ [⟨"assistant", assistant_msg⟩]
      let transcript2 := transcript ++ [⟨"user", user_reply⟩, ⟨"assistant", assistant_msg⟩]
      convLoop llm system_prompt instructions fuel messages2 transcript2 (turns + 1)
    else (messages, transcript, turns)

/-- Embeds `run_scenario` in full, returning the final provider-facing
message history, the transcript, and the turn counter. -/
def runScenarioFull (llm : LLM) (skill_content : String)
    (refs : Option (List (String × String))) (sc : Scenario) (max_turns : Nat) :
    List Message × List Message × Nat :=
  let system_prompt := build_system_prompt skill_content refs
  let messages0 : List Message := [⟨"user", initialContent sc⟩]
  let assistant_msg := llm SKILL_MODEL messages0 (some system_prompt) 4096
  let messages1 := messages0 ++ [⟨"assistant", assistant_msg⟩]
  let transcript0 : List Message :=
    [⟨"user", sc.initial_message⟩, ⟨"assistant", assistant_msg⟩]
  convLoop llm system_prompt sc.user_simulator_instructions (max_turns - 1)
    messages1 transcript0 1

/-- Embeds `run_scenario(skill_content, scenario, max_turns)`: the transcript
it returns. -/
def run_scenario (llm : LLM) (skill_content : String)
    (refs : Option (List (String × String))) (sc : Scenario) (max_turns : Nat) :
    List Message :=
  (runScenarioFull llm skill_content refs sc max_turns).2.1

/-- Number of assistant messages in a transcript. -/
def assistantCount (tr : List Message) : Nat :=
  (tr.filter (fun m => m.role == "assistant")).length

/-- Strict user/assistant alternation starting with `user`, for even-length
lists: the transcript is a sequence of (user, assistant) pairs. -/
def alternatingUA : List Message → Bool
  | [] => true
  | u :: a :: rest => u.role == "user" && a.role == "assistant" && alternatingUA rest
  | _ :: [] => false

/-! ## Chat Gateway (evaluate-skill.py lines 70-92) -/

/-- Python exceptions that can cross the component boundaries. -/
inductive PyErr where
  | valueErr (msg : String) : PyErr
  | apiErr (msg : String) : PyErr
deriving DecidableEq, Repr

/-- One provider request as the SDK receives it: the keyword arguments built
by `chat` (for the OpenAI shape, the system text is already folded into the
message list and `system` is `none`). -/
structure ProviderRequest where
  model : String
  messages : List Message
  system : Option String
  maxTokens : Nat
deriving DecidableEq, Repr

/-- Embeds `chat(model, messages, system, max_tokens)` over abstract provider
backends, also returning the list of provider requests issued.  Errors from
the backend are returned exactly as the backend raised them (the source has
no wrapper around `client.messages.create` / `client.chat.completions.create`). -/
def chat (provider : String)
    (anthropicCall openaiCall : ProviderRequest → Except PyErr String)
    (model : String) (messages : List Message) (sys : Option String)
    (maxTokens : Nat) : Except PyErr String × List ProviderRequest :=
  if provider == "anthropic" then
    let req : ProviderRequest := ⟨model, messages, sys, maxTokens⟩
    (anthropicCall req, [req])
  else if provider == "openai" then
    let full_messages : List Message :=
      match sys with
      | some s => ⟨"system", s⟩ :: messages
      | none => messages
    let req : ProviderRequest := ⟨model, full_messages, none, maxTokens⟩
    (openaiCall req, [req])
  else
    (Except.error (PyErr.valueErr ("Unknown provider: " ++ provider)), [])

/-! ## Scenario Runner (evaluate-skill.py lines 399-444)

One scenario's body of the `try:` block (conversation, grading, transcript
saving) is abstracted as `proc : Scenario → Except PyErr Rat`: `ok score` when
it completes, `error e` when any exception propagates to the `except` clause. -/

/-- The accumulation loop of lines 415-441: on success add the score, on any
exception add the punitive 1.0; both branches count the scenario. -/
def runScenarios (proc : Scenario → Except PyErr Rat) (scenarios : List Scenario) :
    Rat × Nat :=
  scenarios.foldl
    (fun acc sc =>
      match proc sc with
      | Except.ok score => (acc.1 + score, acc.2 + 1)
      | Except.error _ => (acc.1 + 1, acc.2 + 1))
    ((0 : Rat), (0 : Nat))

/-- The final metric of line 443:
`total_score / scenario_count if scenario_count > 0 else 0.0`. -/
def batchMetric (proc : Scenario → Except PyErr Rat) (scenarios : List Scenario) : Rat :=
  let r := runScenarios proc scenarios
  if r.2 > 0 then r.1 / (r.2 : Rat) else 0

/-- Embeds `__main__` (lines 399-444) as `(metric, exit code)`:
the unconfigured-scenarios guard (line 400), the model-validation guard
(line 407), then the scenario loop and the metric print.  A normal run ends
with process exit code 0. -/
def mainOutput (scenarios : List Scenario) (modelsOk : Bool)
    (proc : Scenario → Except PyErr Rat) : Rat × Nat :=
  if scenarios.isEmpty
      || pyIn "TODO" (match scenarios with | [] => "" | sc :: _ => sc.name) then
    (0, 1)
  else if !modelsOk then
    (0, 1)
  else
    (batchMetric proc scenarios, 0)

/-! ## Correctness of the substring primitive -/

/-- Characterisation of `chPrefix`: it decides list-prefix. -/
lemma chPrefix_iff : ∀ n h : List Char, chPrefix n h = true ↔ ∃ q, n ++ q = h
  | [], h => by
    simp only [chPrefix, List.nil_append, true_iff]
    exact ⟨h, rfl⟩
  | a :: as, [] => by
    simp [chPrefix]
  | a :: as, b :: bs => by
    simp only [chPrefix, Bool.and_eq_true, beq_iff_eq]
    constructor
    · rintro ⟨rfl, hp⟩
      obtain ⟨q, rfl⟩ := (chPrefix_iff as bs).1 hp
      exact ⟨q, rfl⟩
    · rintro ⟨q, hq⟩
      injection hq with h1 h2
      exact ⟨h1, (chPrefix_iff as bs).2 ⟨q, h2⟩⟩

/-- Characterisation of `chContains` (Python's `in`): it decides the
existence of a contiguous-substring decomposition. -/
lemma chContains_iff : ∀ n h : List Char, chContains n h = true ↔ ∃ p q, p ++ n ++ q = h
  | n, [] => by
    simp only [chContains, List.isEmpty_iff]
    constructor
    · rintro rfl
      exact ⟨[], [], rfl⟩
    · rintro ⟨p, q, hpq⟩
      rcases List.append_eq_nil.mp hpq with ⟨h1, h2⟩
      exact (List.append_eq_nil.mp h1).2
  | n, c :: t => by
    simp only [chContains, Bool.or_eq_true]
    constructor
    · rintro (hp | hc)
      · obtain ⟨q, hq⟩ := (chPrefix_iff n (c :: t)).1 hp
        exact ⟨[], q, by simpa using hq⟩
      · obtain ⟨p, q, rfl⟩ := (chContains_iff n t).1 hc
        exact ⟨c :: p, q, rfl⟩
    · rintro ⟨p, q, hpq⟩
      match p, hpq with
      | [], hpq =>
        exact Or.inl ((chPrefix_iff n (c :: t)).2 ⟨q, by simpa using hpq⟩)
      | c0 :: p', hpq =>
        simp only [List.cons_append] at hpq
        injection hpq with h1 h2
        exact Or.inr ((chContains_iff n t).2 ⟨p', q, h2⟩)

/-- C8: `needs_user_input` returns `true` exactly when the check model's
reply contains the token `WAITING` as a contiguous substring; any other
reply, malformed or not, yields `false`. -/
theorem needs_user_input_iff_waiting (llm : LLM) (transcript : List Message) :
    needs_user_input llm transcript = true ↔
    ∃ p q : List Char,
      p ++ "WAITING".data ++ q =
        (llm INPUT_CHECK_MODEL
          [⟨"user", inputCheckPrompt (format_transcript transcript)⟩] none 16).data := by
  unfold needs_user_input pyIn
  exact chContains_iff _ _

/-! ## Conversation Driver invariants -/

/-- Head of an append with a nonempty left part. -/
lemma head?_append_left {α : Type} (l l' : List α) (h : l ≠ []) :
    (l ++ l').head? = l.head? := by
  cases l with
  | nil => exact absurd rfl h
  | cons a t => rfl

/-- Appending to a user/assistant pair list keeps the pair structure of the
appended part. -/
lemma alternatingUA_append : ∀ tr : List Message, alternatingUA tr = true →
    ∀ extra, alternatingUA (tr ++ extra) = alternatingUA extra
  | [], _, extra => rfl
  | [_], h, _ => by simp [alternatingUA] at h
  | u :: a :: rest, h, extra => by
    simp only [alternatingUA, Bool.and_eq_true] at h
    simp only [List.cons_append, alternatingUA, h.1.1, h.1.2, Bool.true_and]
    exact alternatingUA_append rest h.2 extra

/-- The conversation loop preserves the transcript invariants: user/assistant
pairing, length exactly twice the turn counter, assistant count equal to the
turn counter; and the turn counter moves monotonically by at most the fuel. -/
lemma convLoop_inv (llm : LLM) (sp instr : String) :
    ∀ (fuel : Nat) (messages transcript : List Message) (turns : Nat),
      alternatingUA transcript = true →
      transcript.length = 2 * turns →
      assistantCount transcript = turns →
      alternatingUA (convLoop llm sp instr fuel messages transcript turns).2.1 = true ∧
      (convLoop llm sp instr fuel messages transcript turns).2.1.length =
        2 * (convLoop llm sp instr fuel messages transcript turns).2.2 ∧
      assistantCount (convLoop llm sp instr fuel messages transcript turns).2.1 =
        (convLoop llm sp instr fuel messages transcript turns).2.2 ∧
      turns ≤ (convLoop llm sp instr fuel messages transcript turns).2.2 ∧
      (convLoop llm sp instr fuel messages transcript turns).2.2 ≤ turns + fuel := by
  intro fuel
  induction fuel with
  | zero =>
    intro messages transcript turns h1 h2 h3
    exact ⟨h1, h2, h3, Nat.le_refl _, Nat.le_add_right _ _⟩
  | succ n ih =>
    intro messages transcript turns h1 h2 h3
    by_cases hni : needs_user_input llm transcript = true
    · simp only [convLoop, hni, if_true]
      have h1' : alternatingUA (transcript ++
          [⟨"user", simulate_user llm transcript instr⟩,
           ⟨"assistant", llm SKILL_MODEL (messages ++ [⟨"user", simulate_user llm transcript instr⟩]) (some sp) 4096⟩]) = true := by
        rw [alternatingUA_append transcript h1]
        rfl
      have h2' : (transcript ++
          ([⟨"user", simulate_user llm transcript instr⟩,
            ⟨"assistant", llm SKILL_MODEL (messages ++ [⟨"user", simulate_user llm transcript instr⟩]) (some sp) 4096⟩] : List Message)).length = 2 * (turns + 1) := by
        simp only [List.length_append, List.length_cons, List.length_nil, h2]
        omega
      have h3' : assistantCount (transcript ++
          ([⟨"user", simulate_user llm transcript instr⟩,
            ⟨"assistant", llm SKILL_MODEL (messages ++ [⟨"user", simulate_user llm transcript instr⟩]) (some sp) 4096⟩] : List Message)) = turns + 1 := by
        unfold assistantCount at h3 ⊢
        simp only [List.filter_append, List.length_append, h3]
        rfl
      obtain ⟨g1, g2, g3, g4, g5⟩ := ih _ _ (turns + 1) h1' h2' h3'
      exact ⟨g1, g2, g3, Nat.le_trans (Nat.le_succ turns) g4, by omega⟩
    · simp only [convLoop, hni, if_false]
      exact ⟨h1, h2, h3, Nat.le_refl _, Nat.le_add_right _ _⟩

/-- With an Oracle that always reports waiting, the loop consumes all its
fuel, one turn per unit. -/
lemma convLoop_turns_of_waiting (llm : LLM) (sp instr : String)
    (hW : ∀ tr, needs_user_input llm tr = true) :
    ∀ (fuel : Nat) (messages transcript : List Message) (turns : Nat),
      (convLoop llm sp instr fuel messages transcript turns).2.2 = turns + fuel := by
  intro fuel
  induction fuel with
  | zero => intro m t k; rfl
  | succ n ih =>
    intro m t k
    simp only [convLoop, hW t, if_true]
    rw [ih]
    omega

/-- The loop only appends: the heads of the message history and of the
transcript are preserved. -/
lemma convLoop_heads (llm : LLM) (sp instr : String) :
    ∀ (fuel : Nat) (messages transcript : List Message) (turns : Nat),
      messages ≠ [] → transcript ≠ [] →
      (convLoop llm sp instr fuel messages transcript turns).1.head? = messages.head? ∧
      (convLoop llm sp instr fuel messages transcript turns).2.1.head? = transcript.head? := by
  intro fuel
  induction fuel with
  | zero => intro m t k _ _; exact ⟨rfl, rfl⟩
  | succ n ih =>
    intro m t k hm ht
    by_cases hni : needs_user_input llm t = true
    · simp only [convLoop, hni, if_true]
      have hm1 : m ++ [(⟨"user", simulate_user llm t instr⟩ : Message)] ≠ [] := by
        simp
      have hm2 : (m ++ [(⟨"user", simulate_user llm t instr⟩ : Message)]) ++
          [(⟨"assistant", llm SKILL_MODEL (m ++ [⟨"user", simulate_user llm t instr⟩]) (some sp) 4096⟩ : Message)] ≠ [] := by
        simp
      have ht2 : t ++ [(⟨"user", simulate_user llm t instr⟩ : Message),
          ⟨"assistant", llm SKILL_MODEL (m ++ [⟨"user", simulate_user llm t instr⟩]) (some sp) 4096⟩] ≠ [] := by
        cases t <;> simp
      obtain ⟨g1, g2⟩ := ih _ _ (k + 1) hm2 ht2
      constructor
      · rw [g1, head?_append_left _ _ hm1, head?_append_left _ _ hm]
      · rw [g2, head?_append_left _ _ ht]
    · simp only [convLoop, hni, if_false]
      exact ⟨rfl, rfl⟩

/-- The driver-level invariants, obtained from the loop invariants at the
state after the Start step (one user/assistant pair, turn counter 1). -/
lemma runScenarioFull_inv (llm : LLM) (skill : String)
    (refs : Option (List (String × String))) (sc : Scenario) (max_turns : Nat) :
    alternatingUA (runScenarioFull llm skill refs sc max_turns).2.1 = true ∧
    (runScenarioFull llm skill refs sc max_turns).2.1.length =
      2 * (runScenarioFull llm skill refs sc max_turns).2.2 ∧
    assistantCount (runScenarioFull llm skill refs sc max_turns).2.1 =
      (runScenarioFull llm skill refs sc max_turns).2.2 ∧
    1 ≤ (runScenarioFull llm skill refs sc max_turns).2.2 ∧
    (runScenarioFull llm skill refs sc max_turns).2.2 ≤ 1 + (max_turns - 1) :=
  convLoop_inv llm (build_system_prompt skill refs) sc.user_simulator_instructions
    (max_turns - 1) _ _ 1 rfl rfl rfl

/-- With an always-waiting Oracle the driver uses the whole turn budget. -/
lemma runScenarioFull_turns_of_waiting (llm : LLM) (skill : String)
    (refs : Option (List (String × String))) (sc : Scenario) (max_turns : Nat)
    (hW : ∀ tr, needs_user_input llm tr = true) :
    (runScenarioFull llm skill refs sc max_turns).2.2 = 1 + (max_turns - 1) :=
  convLoop_turns_of_waiting llm (build_system_prompt skill refs)
    sc.user_simulator_instructions hW (max_turns - 1) _ _ 1

/-- Heads of the driver's outputs: the provider-facing history starts with
the context-bearing `initial_content`, the returned transcript with the bare
`initial_message`. -/
lemma runScenarioFull_heads (llm : LLM) (skill : String)
    (refs : Option (List (String × String))) (sc : Scenario) (max_turns : Nat) :
    (runScenarioFull llm skill refs sc max_turns).1.head? =
      some ⟨"user", initialContent sc⟩ ∧
    (runScenarioFull llm skill refs sc max_turns).2.1.head? =
      some ⟨"user", sc.initial_message⟩ := by
  have H := convLoop_heads llm (build_system_prompt skill refs)
    sc.user_simulator_instructions (max_turns - 1)
    ([⟨"user", initialContent sc⟩] ++
      [⟨"assistant", llm SKILL_MODEL [⟨"user", initialContent sc⟩]
        (some (build_system_prompt skill refs)) 4096⟩])
    [⟨"user", sc.initial_message⟩,
     ⟨"assistant", llm SKILL_MODEL [⟨"user", initialContent sc⟩]
        (some (build_system_prompt skill refs)) 4096⟩]
    1 (by simp) (by simp)
  exact ⟨H.1, H.2⟩

/-- C4: every transcript returned by `run_scenario` has an even message
count of at least 2, its roles strictly alternate as (user, assistant)
pairs, its length is exactly twice the driver's turn counter, and one
iteration of the Continue loop extends the transcript by exactly one user
message followed by one assistant message while incrementing the counter. -/
theorem transcript_even_alternating (llm : LLM) (skill : String)
    (refs : Option (List (String × String))) (sc : Scenario) (max_turns : Nat) :
    2 ≤ (run_scenario llm skill refs sc max_turns).length ∧
    Even (run_scenario llm skill refs sc max_turns).length ∧
    alternatingUA (run_scenario llm skill refs sc max_turns) = true ∧
    (run_scenario llm skill refs sc max_turns).length =
      2 * (runScenarioFull llm skill refs sc max_turns).2.2 ∧
    (∀ (fuel : Nat) (msgs tr : List Message) (k : Nat),
      needs_user_input llm tr = true →
      convLoop llm (build_system_prompt skill refs) sc.user_simulator_instructions
          (fuel + 1) msgs tr k =
        convLoop llm (build_system_prompt skill refs) sc.user_simulator_instructions
          fuel
          (msgs ++ [⟨"user", simulate_user llm tr sc.user_simulator_instructions⟩,
            ⟨"assistant", llm SKILL_MODEL
              (msgs ++ [⟨"user", simulate_user llm tr sc.user_simulator_instructions⟩])
              (some (build_system_prompt skill refs)) 4096⟩])
          (tr ++ [⟨"user", simulate_user llm tr sc.user_simulator_instructions⟩,
            ⟨"assistant", llm SKILL_MODEL
              (msgs ++ [⟨"user", simulate_user llm tr sc.user_simulator_instructions⟩])
              (some (build_system_prompt skill refs)) 4096⟩])
          (k + 1)) := by
  obtain ⟨g1, g2, g3, g4, g5⟩ := runScenarioFull_inv llm skill refs sc max_turns
  have e : run_scenario llm skill refs sc max_turns =
      (runScenarioFull llm skill refs sc max_turns).2.1 := rfl
  refine ⟨?_, ?_, ?_, ?_, ?_⟩
  · rw [e, g2]; omega
  · rw [e, g2]; exact ⟨(runScenarioFull llm skill refs sc max_turns).2.2, by omega⟩
  · rw [e]; exact g1
  · rw [e]; exact g2
  · intro fuel msgs tr k hni
    simp only [convLoop, hni, if_true, List.append_assoc, List.cons_append,
      List.nil_append]

/-- C4 witness: the shape properties evaluated on a concrete run. -/
theorem transcript_even_alternating_witness :
    2 ≤ (run_scenario (fun _ _ _ _ => "WAITING") "skill text" none
        ⟨"w4", "start", [], "instr", []⟩ 2).length ∧
    Even (run_scenario (fun _ _ _ _ => "WAITING") "skill text" none
        ⟨"w4", "start", [], "instr", []⟩ 2).length ∧
    alternatingUA (run_scenario (fun _ _ _ _ => "WAITING") "skill text" none
        ⟨"w4", "start", [], "instr", []⟩ 2) = true ∧
    (run_scenario (fun _ _ _ _ => "WAITING") "skill text" none
        ⟨"w4", "start", [], "instr", []⟩ 2).length =
      2 * (runScenarioFull (fun _ _ _ _ => "WAITING") "skill text" none
        ⟨"w4", "start", [], "instr", []⟩ 2).2.2 ∧
    (∀ (fuel : Nat) (msgs tr : List Message) (k : Nat),
      needs_user_input (fun _ _ _ _ => "WAITING") tr = true →
      convLoop (fun _ _ _ _ => "WAITING")
          (build_system_prompt "skill text" none)
          (Scenario.user_simulator_instructions ⟨"w4", "start", [], "instr", []⟩)
          (fuel + 1) msgs tr k =
        convLoop (fun _ _ _ _ => "WAITING")
          (build_system_prompt "skill text" none)
          (Scenario.user_simulator_instructions ⟨"w4", "start", [], "instr", []⟩)
          fuel
          (msgs ++ [⟨"user", simulate_user (fun _ _ _ _ => "WAITING") tr
              (Scenario.user_simulator_instructions ⟨"w4", "start", [], "instr", []⟩)⟩,
            ⟨"assistant", (fun _ _ _ _ => "WAITING") SKILL_MODEL
              (msgs ++ [⟨"user", simulate_user (fun _ _ _ _ => "WAITING") tr
                (Scenario.user_simulator_instructions ⟨"w4", "start", [], "instr", []⟩)⟩])
              (some (build_system_prompt "skill text" none)) 4096⟩])
          (tr ++ [⟨"user", simulate_user (fun _ _ _ _ => "WAITING") tr
              (Scenario.user_simulator_instructions ⟨"w4", "start", [], "instr", []⟩)⟩,
            ⟨"assistant", (fun _ _ _ _ => "WAITING") SKILL_MODEL
              (msgs ++ [⟨"user", simulate_user (fun _ _ _ _ => "WAITING") tr
                (Scenario.user_simulator_instructions ⟨"w4", "start", [], "instr", []⟩)⟩])
              (some (build_system_prompt "skill text" none)) 4096⟩])
          (k + 1)) :=
  transcript_even_alternating (fun _ _ _ _ => "WAITING") "skill text" none
    ⟨"w4", "start", [], "instr", []⟩ 2

/-- C5: for `max_turns ≥ 1` the driver always terminates with at most
`max_turns` assistant turns, and with an Oracle that always reports waiting
it produces exactly `max_turns` assistant replies. -/
theorem conversation_turns_bounded (llm : LLM) (skill : String)
    (refs : Option (List (String × String))) (sc : Scenario) (max_turns : Nat)
    (h : 1 ≤ max_turns) :
    assistantCount (run_scenario llm skill refs sc max_turns) ≤ max_turns ∧
    ((∀ tr, needs_user_input llm tr = true) →
      assistantCount (run_scenario llm skill refs sc max_turns) = max_turns) := by
  obtain ⟨-, -, g3, g4, g5⟩ := runScenarioFull_inv llm skill refs sc max_turns
  have e : run_scenario llm skill refs sc max_turns =
      (runScenarioFull llm skill refs sc max_turns).2.1 := rfl
  constructor
  · rw [e, g3]; omega
  · intro hW
    rw [e, g3, runScenarioFull_turns_of_waiting llm skill refs sc max_turns hW]
    omega

/-- C5 witness: with `max_turns = 3` and a check model that always answers
`WAITING`, the driver stops after exactly 3 assistant replies. -/
theorem conversation_turns_bounded_witness :
    assistantCount (run_scenario (fun _ _ _ _ => "WAITING") "skill text" none
      ⟨"w5", "start", [], "instr", []⟩ 3) = 3 :=
  (conversation_turns_bounded (fun _ _ _ _ => "WAITING") "skill text" none
      ⟨"w5", "start", [], "instr", []⟩ 3 (by decide)).2 (fun _ => rfl)

/-! ## Context-file placement (claims C2 and C10) -/

/-- Lexicographic code-point comparison on char lists (the order Python
`sorted` uses on strings). -/
def charListLt : List Char → List Char → Bool
  | [], [] => false
  | [], _ :: _ => true
  | _ :: _, [] => false
  | a :: as, b :: bs => Nat.blt a.toNat b.toNat || (a == b && charListLt as bs)

/-- Boolean name comparison used by the spec-side sorted order. -/
def keyLe (a b : String) : Bool :=
  charListLt a.data b.data || a == b

/-- Insertion step of the spec-side sort. -/
def insertByName (p : String × String) :
    List (String × String) → List (String × String)
  | [] => [p]
  | q :: rest => if keyLe p.1 q.1 then p :: q :: rest else q :: insertByName p rest

/-- Name-sorted order on a context-file list. -/
def sortByName : List (String × String) → List (String × String)
  | [] => []
  | p :: rest => insertByName p (sortByName rest)

/-- Modelled from the spec: claim C2's reading that the context files appear
"ordered stably by sorted name"; the files-block built over the sorted list,
to be compared with `filesBlock` over the source's dict iteration order. -/
def filesBlockSortedSpec (ctx : List (String × String)) : String :=
  filesBlock (sortByName ctx)

/-- C2 (amended): with a non-empty `context_files` mapping, the first user
turn of the provider-facing conversation is the context files' contents
concatenated before `initial_message` — in the mapping's own iteration
(insertion) order. -/
theorem first_user_turn_has_context (llm : LLM) (skill : String)
    (refs : Option (List (String × String))) (sc : Scenario) (max_turns : Nat)
    (h : sc.context_files ≠ []) :
    (runScenarioFull llm skill refs sc max_turns).1.head? =
      some ⟨"user", filesBlock sc.context_files ++ "\n\n" ++ sc.initial_message⟩ := by
  rw [(runScenarioFull_heads llm skill refs sc max_turns).1]
  unfold initialContent
  rw [if_neg]
  simp [List.isEmpty_iff, h]

/-- C2 witness: a concrete scenario with one context file. -/
theorem first_user_turn_has_context_witness :
    (runScenarioFull (fun _ _ _ _ => "done") "skill text" none
        ⟨"w2", "go", [("a.py", "print(1)")], "instr", []⟩ 10).1.head? =
      some ⟨"user", filesBlock [("a.py", "print(1)")] ++ "\n\n" ++ "go"⟩ :=
  first_user_turn_has_context (fun _ _ _ _ => "done") "skill text" none
    ⟨"w2", "go", [("a.py", "print(1)")], "instr", []⟩ 10 (by decide)

/-- C2 counterexample: with context files inserted as `b.py` then `a.py`,
the first provider-facing user turn is NOT the sorted-by-name concatenation
the claim describes — the source iterates the dict in insertion order. -/
theorem first_user_turn_not_sorted :
    (runScenarioFull (fun _ _ _ _ => "done") "skill text" none
        ⟨"c2", "do it", [("b.py", "B"), ("a.py", "A")], "instr", []⟩ 10).1.head? ≠
      some ⟨"user",
        filesBlockSortedSpec [("b.py", "B"), ("a.py", "A")] ++ "\n\n" ++ "do it"⟩ := by
  decide

/-- C10: the transcript `run_scenario` returns never contains the context
files — its first message is exactly `initial_message` — while the
provider-facing message sequence does carry the context-file prefix. -/
theorem transcript_first_message_excludes_context (llm : LLM) (skill : String)
    (refs : Option (List (String × String))) (sc : Scenario) (max_turns : Nat) :
    (run_scenario llm skill refs sc max_turns).head? =
      some ⟨"user", sc.initial_message⟩ ∧
    (sc.context_files ≠ [] →
      (runScenarioFull llm skill refs sc max_turns).1.head? =
        some ⟨"user", filesBlock sc.context_files ++ "\n\n" ++ sc.initial_message⟩) := by
  refine ⟨(runScenarioFull_heads llm skill refs sc max_turns).2, fun h => ?_⟩
  rw [(runScenarioFull_heads llm skill refs sc max_turns).1]
  unfold initialContent
  rw [if_neg]
  simp [List.isEmpty_iff, h]

/-- C10 witness: a concrete scenario whose transcript starts with the bare
initial message although a context file was sent to the provider. -/
theorem transcript_first_message_excludes_context_witness :
    (run_scenario (fun _ _ _ _ => "done") "skill text" none
        ⟨"w10", "fix this", [("m.py", "x = 1")], "instr", []⟩ 5).head? =
      some ⟨"user", "fix this"⟩ ∧
    (runScenarioFull (fun _ _ _ _ => "done") "skill text" none
        ⟨"w10", "fix this", [("m.py", "x = 1")], "instr", []⟩ 5).1.head? =
      some ⟨"user", filesBlock [("m.py", "x = 1")] ++ "\n\n" ++ "fix this"⟩ :=
  ⟨(transcript_first_message_excludes_context (fun _ _ _ _ => "done") "skill text" none
      ⟨"w10", "fix this", [("m.py", "x = 1")], "instr", []⟩ 5).1,
   (transcript_first_message_excludes_context (fun _ _ _ _ => "done") "skill text" none
      ⟨"w10", "fix this", [("m.py", "x = 1")], "instr", []⟩ 5).2 (by decide)⟩

/-! ## Transcript Grader claims (C1 and C9) -/

/-- C1 (amended): when the judge reply fails to parse as JSON and its
reversed, stripped line scan yields no `SCORE:` integer, grading returns the
fixed neutral score 3 without raising; in particular the reply
`"not json at all"` always yields 3, deterministically, for every transcript
and every expected-behavior list. -/
theorem grade_fallback_neutral (text : String)
    (hjson : jsonParse text = none)
    (hscan : scanScore ((pySplit text '\n').reverse) = none) :
    parseJudgeReply text = Except.ok (Json.num 3) ∧
    ∀ (transcript : List Message) (behaviors : List String),
      grade_transcript (fun _ _ _ _ => "not json at all") transcript behaviors =
        Except.ok (Json.num 3) := by
  constructor
  · unfold parseJudgeReply
    rw [hjson, hscan]
  · intro transcript behaviors
    rfl

/-- C1 witness: the fallback evaluated at a concrete non-JSON reply. -/
theorem grade_fallback_neutral_witness :
    parseJudgeReply "totally not json" = Except.ok (Json.num 3) ∧
    ∀ (transcript : List Message) (behaviors : List String),
      grade_transcript (fun _ _ _ _ => "not json at all") transcript behaviors =
        Except.ok (Json.num 3) :=
  grade_fallback_neutral "totally not json" rfl rfl

/-- C1 counterexample: `grade_transcript` is not exception-free for every
judge reply — a reply that parses as JSON but not as a JSON object (here a
list) makes `result.get("overall", 3)` raise `AttributeError`, which no
`except` clause of `grade_transcript` catches. -/
theorem grade_nonobject_json_raises :
    grade_transcript (fun _ _ _ _ => "[1, 2]") [] [] =
      Except.error "AttributeError: result has no attribute get" := rfl

/-- C9: on a JSON-parse failure, grading returns exactly the integer the
reverse line scan finds on the first stripped line starting with `SCORE:`;
in particular the reply `"blah\nSCORE: 2\n"` yields 2. -/
theorem grade_score_line_fallback (text : String) (n : Int)
    (hjson : jsonParse text = none)
    (hscan : scanScore ((pySplit text '\n').reverse) = some n) :
    parseJudgeReply text = Except.ok (Json.num n) ∧
    parseJudgeReply "blah\nSCORE: 2\n" = Except.ok (Json.num 2) := by
  refine ⟨?_, rfl⟩
  unfold parseJudgeReply
  rw [hjson, hscan]

/-- C9 witness: the line-scan fallback evaluated at a concrete reply. -/
theorem grade_score_line_fallback_witness :
    parseJudgeReply "analysis text\nSCORE: 4" = Except.ok (Json.num 4) ∧
    parseJudgeReply "blah\nSCORE: 2\n" = Except.ok (Json.num 2) :=
  grade_score_line_fallback "analysis text\nSCORE: 4" 4 rfl rfl

/-! ## Chat Gateway claim (C3) -/

/-- C3 (amended): on each configured provider, `chat` issues exactly one
provider request and returns the backend's answer unchanged — in particular
a backend error is propagated to the caller exactly as the backend raised
it, with no wrapping and no retry. -/
theorem chat_single_request_no_retry
    (anthropicCall openaiCall : ProviderRequest → Except PyErr String)
    (model : String) (messages : List Message) (sys : Option String)
    (maxTokens : Nat) :
    chat "anthropic" anthropicCall openaiCall model messages sys maxTokens =
      (anthropicCall ⟨model, messages, sys, maxTokens⟩,
       [⟨model, messages, sys, maxTokens⟩]) ∧
    chat "openai" anthropicCall openaiCall model messages sys maxTokens =
      (openaiCall ⟨model,
          (match sys with
           | some s => ⟨"system", s⟩ :: messages
           | none => messages), none, maxTokens⟩,
       [⟨model,
          (match sys with
           | some s => ⟨"system", s⟩ :: messages
           | none => messages), none, maxTokens⟩]) ∧
    (chat "anthropic" anthropicCall openaiCall model messages sys maxTokens).2.length = 1 ∧
    (chat "openai" anthropicCall openaiCall model messages sys maxTokens).2.length = 1 :=
  ⟨rfl, rfl, rfl, rfl⟩

/-- C3 counterexample: the propagated error does not carry the model id —
the same backend failure produces literally identical exceptions for two
different model ids, so no function of the propagated error can recover the
model id, contradicting the claimed `ProviderError` payload. -/
theorem chat_error_lacks_model_id :
    ¬ ∃ f : PyErr → String, ∀ (model : String) (e : PyErr),
      (chat "anthropic" (fun _ => Except.error (PyErr.apiErr "connection error"))
          (fun _ => Except.error (PyErr.apiErr "connection error"))
          model [] none 16).1 = Except.error e → f e = model := by
  rintro ⟨f, hf⟩
  have h1 := hf "model-a" (PyErr.apiErr "connection error") rfl
  have h2 := hf "model-b" (PyErr.apiErr "connection error") rfl
  have : ("model-a" : String) = "model-b" := h1.symm.trans h2
  exact absurd this (by decide)

/-! ## Scenario Runner claims (C6 and C7) -/

/-- The scenario counter equals the number of scenarios handed to the loop:
both the success branch and the exception branch count the scenario. -/
lemma runScenarios_count (proc : Scenario → Except PyErr Rat) :
    ∀ (scenarios : List Scenario) (acc : Rat × Nat),
      (List.foldl
        (fun acc sc =>
          match proc sc with
          | Except.ok score => (acc.1 + score, acc.2 + 1)
          | Except.error _ => (acc.1 + 1, acc.2 + 1)) acc scenarios).2 =
        acc.2 + scenarios.length := by
  intro scenarios
  induction scenarios with
  | nil => intro acc; simp
  | cons sc rest ih =>
    intro acc
    cases hp : proc sc with
    | ok score => simp only [List.foldl, hp, ih, List.length_cons]; omega
    | error e => simp only [List.foldl, hp, ih, List.length_cons]; omega

/-- C6: a scenario that raises does not abort the batch — it contributes the
punitive score 1, the remaining scenarios are still processed, and with
three scenarios of which only the second raises the final metric is
`(score1 + 1 + score3) / 3`. -/
theorem runner_isolates_scenario_failure (proc : Scenario → Except PyErr Rat)
    (sc1 sc2 sc3 : Scenario) (q1 q3 : Rat) (e : PyErr)
    (h1 : proc sc1 = Except.ok q1)
    (h2 : proc sc2 = Except.error e)
    (h3 : proc sc3 = Except.ok q3) :
    runScenarios proc [sc1, sc2, sc3] = (q1 + 1 + q3, 3) ∧
    batchMetric proc [sc1, sc2, sc3] = (q1 + 1 + q3) / 3 := by
  have hr : runScenarios proc [sc1, sc2, sc3] = (q1 + 1 + q3, 3) := by
    unfold runScenarios
    simp only [List.foldl, h1, h2, h3]
    norm_num
  refine ⟨hr, ?_⟩
  unfold batchMetric
  rw [hr]
  norm_num

/-- C6 witness: three concrete scenarios where only the second raises. -/
theorem runner_isolates_scenario_failure_witness :
    runScenarios
        (fun sc => if sc.name == "s2" then Except.error (PyErr.apiErr "boom")
                   else if sc.name == "s1" then Except.ok 5 else Except.ok 4)
        [⟨"s1", "m", [], "i", []⟩, ⟨"s2", "m", [], "i", []⟩, ⟨"s3", "m", [], "i", []⟩] =
      (5 + 1 + 4, 3) ∧
    batchMetric
        (fun sc => if sc.name == "s2" then Except.error (PyErr.apiErr "boom")
                   else if sc.name == "s1" then Except.ok 5 else Except.ok 4)
        [⟨"s1", "m", [], "i", []⟩, ⟨"s2", "m", [], "i", []⟩, ⟨"s3", "m", [], "i", []⟩] =
      (5 + 1 + 4) / 3 :=
  runner_isolates_scenario_failure _ _ _ _ 5 4 (PyErr.apiErr "boom") rfl rfl rfl

/-- C7: with an empty or unconfigured scenario list, or failed model
validation, the harness emits metric 0 with the non-zero exit code 1 — and
no division by zero can occur, because the scenario counter equals the
scenario-list length, which is positive on every path that divides. -/
theorem zero_scenarios_zero_metric (scenarios : List Scenario) (modelsOk : Bool)
    (proc : Scenario → Except PyErr Rat)
    (h : scenarios = [] ∨
      pyIn "TODO" (match scenarios with | [] => "" | sc :: _ => sc.name) = true ∨
      modelsOk = false) :
    mainOutput scenarios modelsOk proc = (0, 1) ∧
    (runScenarios proc scenarios).2 = scenarios.length := by
  constructor
  · unfold mainOutput
    rcases h with h | h | h
    · subst h; rfl
    · rw [h]
      simp
    · subst h
      split
      · rfl
      · rfl
  · unfold runScenarios
    rw [runScenarios_count proc scenarios ((0 : Rat), (0 : Nat))]
    omega

/-- C7 witness: the empty scenario list yields metric 0 and exit code 1. -/
theorem zero_scenarios_zero_metric_witness :
    mainOutput [] true (fun _ => Except.ok 5) = (0, 1) ∧
    (runScenarios (fun _ => Except.ok 5) []).2 = ([] : List Scenario).length :=
  zero_scenarios_zero_metric [] true (fun _ => Except.ok 5) (Or.inl rfl)

end SkillEval
